import Mathlib

/-!
Shallow embedding of the real-time collaborative board-synchronization core of
the sorting-tool repository: the socket event handlers of server/src/index.ts,
the SQLite data-access layer of server/src/database/service.ts (with the
foreign-key cascade behaviour of database/schema.ts, enabled by the
`foreign_keys = ON` pragma in database/init.ts), and the client-side activity
expiry of src/store/useStore.ts.

Identifiers are opaque strings, timestamps are naturals, and canvas
coordinates are integers (the sync core never computes with them; it only
stores and relays them). JavaScript `Map`s are modelled as association lists
with unique keys maintained by a replace-or-append `mapSet`.
-/

namespace SortingTool

/-- Lookup in an association list keyed by strings (JS `Map.get`). -/
def mapGet {α : Type} (k : String) : List (String × α) → Option α
  | [] => none
  | p :: rest => if p.1 == k then some p.2 else mapGet k rest

/-- Insertion in an association list (JS `Map.set`): replaces the value at an
existing key in place, otherwise appends at the end (insertion order). -/
def mapSet {α : Type} (k : String) (v : α) : List (String × α) → List (String × α)
  | [] => [(k, v)]
  | p :: rest => if p.1 == k then (k, v) :: rest else p :: mapSet k v rest

/-- Removal from an association list (JS `Map.delete`); since keys are unique
by construction, filtering removes exactly the entry for `k`. -/
def mapDelete {α : Type} (k : String) (l : List (String × α)) : List (String × α) :=
  l.filter (fun p => !(p.1 == k))

/-- Replace the first element satisfying `p` by its image under `f`
(JS `findIndex` followed by assignment at that index); identity when no
element matches. -/
def updateFirst {α : Type} (p : α → Bool) (f : α → α) : List α → List α
  | [] => []
  | x :: xs => if p x then f x :: xs else x :: updateFirst p f xs

/-- Sticky library item (src Sticky interface). -/
structure Sticky where
  id : String
  text : String
  color : String
  createdAt : Nat
deriving Repr, DecidableEq

/-- Placement of a Sticky on the canvas (src CanvasInstance interface). -/
structure CanvasInstance where
  id : String
  stickyId : String
  x : Int
  y : Int
  width : Int
  height : Int
  zIndex : Int
  overriddenText : Option String
deriving Repr, DecidableEq

/-- Partial-field patch for a sticky update (the `updates` object spread over
the stored sticky: a field present in the patch replaces the stored field,
an absent field leaves it untouched). -/
structure StickyPatch where
  text : Option String
  color : Option String
deriving Repr, DecidableEq

/-- Partial-field patch for a canvas-instance update. -/
structure InstancePatch where
  x : Option Int
  y : Option Int
  width : Option Int
  height : Option Int
  zIndex : Option Int
  overriddenText : Option String
deriving Repr, DecidableEq

/-- JS object spread `\x7b...sticky, ...updates\x7d` restricted to the fields a
sticky update carries. -/
def applyStickyPatch (s : Sticky) (p : StickyPatch) : Sticky :=
  { s with
    text := p.text.getD s.text
    color := p.color.getD s.color }

/-- JS object spread `\x7b...instance, ...updates\x7d` restricted to the fields an
instance update carries. -/
def applyInstancePatch (ci : CanvasInstance) (p : InstancePatch) : CanvasInstance :=
  { ci with
    x := p.x.getD ci.x
    y := p.y.getD ci.y
    width := p.width.getD ci.width
    height := p.height.getD ci.height
    zIndex := p.zIndex.getD ci.zIndex
    overriddenText := match p.overriddenText with
      | some t => some t
      | none => ci.overriddenText }

/-- Board content: the stickies and canvas instances of a board
(`board.project` in index.ts; ordering is irrelevant to the data model). -/
structure Content where
  stickies : List Sticky
  canvasInstances : List CanvasInstance
deriving Repr, DecidableEq

/-- Empty content set (`\x7b stickies: [], canvasInstances: [] \x7d`). -/
def Content.empty : Content := ⟨[], []⟩

/-- The six content-mutation kinds routed by the server
(index.ts lines 179-285). -/
inductive MutationEvent where
  | stickyCreate (sticky : Sticky)
  | stickyUpdate (stickyId : String) (updates : StickyPatch)
  | stickyDelete (stickyId : String)
  | instanceCreate (inst : CanvasInstance)
  | instanceUpdate (instanceId : String) (updates : InstancePatch)
  | instanceDelete (instanceId : String)
deriving Repr, DecidableEq

/-- Pure content transformation performed by each mutation handler on
`board.project` (index.ts: push for create, findIndex + spread for update,
filter for delete; sticky delete also filters instances referencing the
deleted sticky). -/
def applyMutation : MutationEvent → Content → Content
  | .stickyCreate s, c => { c with stickies := c.stickies ++ [s] }
  | .stickyUpdate sid p, c =>
      { c with stickies := updateFirst (fun s => s.id == sid) (fun s => applyStickyPatch s p) c.stickies }
  | .stickyDelete sid, c =>
      { stickies := c.stickies.filter (fun s => !(s.id == sid))
        canvasInstances := c.canvasInstances.filter (fun ci => !(ci.stickyId == sid)) }
  | .instanceCreate i, c => { c with canvasInstances := c.canvasInstances ++ [i] }
  | .instanceUpdate iid p, c =>
      { c with canvasInstances := updateFirst (fun ci => ci.id == iid) (fun ci => applyInstancePatch ci p) c.canvasInstances }
  | .instanceDelete iid, c =>
      { c with canvasInstances := c.canvasInstances.filter (fun ci => !(ci.id == iid)) }

/-- Whether a mutation handler sets `board.updatedAt`: the update handlers do
so only inside the found-index branch, every other handler does so
unconditionally. -/
def mutationFound : MutationEvent → Content → Bool
  | .stickyUpdate sid _, c => c.stickies.any (fun s => s.id == sid)
  | .instanceUpdate iid _, c => c.canvasInstances.any (fun ci => ci.id == iid)
  | _, _ => true

/-- Row of the `users` table (database/schema.ts). -/
structure DbUser where
  id : String
  username : String
  password_hash : String
  created_at : Nat
deriving Repr, DecidableEq

/-- Row of the `boards` table (database/schema.ts). -/
structure DbBoard where
  id : String
  name : String
  owner_id : String
  owner_username : String
  board_id : String
  created_at : Nat
  updated_at : Nat
deriving Repr, DecidableEq

/-- Row of the `stickies` table (database/schema.ts). -/
structure DbSticky where
  id : String
  board_id : String
  text : String
  color : String
  created_at : Nat
deriving Repr, DecidableEq

/-- Row of the `canvas_instances` table (database/schema.ts). -/
structure DbCanvasInstance where
  id : String
  board_id : String
  sticky_id : String
  x : Int
  y : Int
  width : Int
  height : Int
  z_index : Int
  overridden_text : Option String
deriving Repr, DecidableEq

/-- Durable storage: the SQLite tables the sync core touches. -/
structure Database where
  users : List DbUser
  boards : List DbBoard
  stickies : List DbSticky
  canvas_instances : List DbCanvasInstance
deriving Repr, DecidableEq

/-- service.ts getBoardByBoardId: `SELECT * FROM boards WHERE board_id = ?`. -/
def getBoardByBoardId (db : Database) (boardIdField : String) : Option DbBoard :=
  db.boards.find? (fun b => b.board_id == boardIdField)

/-- service.ts getBoardMetadata: `SELECT * FROM boards WHERE id = ?`. -/
def getBoardMetadata (db : Database) (boardId : String) : Option DbBoard :=
  db.boards.find? (fun b => b.id == boardId)

/-- Result of service.ts getFullBoard: the board row together with its sticky
and canvas-instance rows. The `ORDER BY` clauses of the source queries only
fix a list order; the data model treats content as order-irrelevant sets, so
rows are kept in table order here. -/
structure FullBoard where
  board : DbBoard
  stickies : List DbSticky
  canvasInstances : List DbCanvasInstance
deriving Repr, DecidableEq

/-- service.ts getFullBoard. -/
def getFullBoard (db : Database) (boardId : String) : Option FullBoard :=
  match getBoardMetadata db boardId with
  | none => none
  | some b =>
      some { board := b
             stickies := db.stickies.filter (fun s => s.board_id == boardId)
             canvasInstances := db.canvas_instances.filter (fun ci => ci.board_id == boardId) }

/-- service.ts helper updateBoardTimestamp:
`UPDATE boards SET updated_at = ? WHERE id = ?`. -/
def updateBoardTimestamp (boardId : String) (now : Nat) (db : Database) : Database :=
  { db with boards := db.boards.map (fun b => if b.id == boardId then { b with updated_at := now } else b) }

/-- service.ts createBoard: validates the owning user, then inserts a board
row; returns `none` when the user lookup fails (the source throws there). -/
def createBoard (db : Database) (name : String) (userId : String) (boardIdField : String)
    (rowId : String) (now : Nat) : Option (Database × DbBoard) :=
  match db.users.find? (fun u => u.id == userId) with
  | none => none
  | some user =>
      let board : DbBoard :=
        { id := rowId
          name := name
          owner_id := userId
          owner_username := user.username
          board_id := boardIdField
          created_at := now
          updated_at := now }
      some ({ db with boards := db.boards ++ [board] }, board)

/-- service.ts deleteSticky: `DELETE FROM stickies WHERE id = ?` followed by
the board-timestamp touch. The removal of every canvas-instance row whose
`sticky_id` matches is the `ON DELETE CASCADE` of the foreign key declared in
schema.ts for `canvas_instances.sticky_id`, active because init.ts sets
`PRAGMA foreign_keys = ON`. -/
def dbDeleteSticky (stickyId : String) (now : Nat) (db : Database) : Database :=
  let boardIdOfSticky := (db.stickies.find? (fun s => s.id == stickyId)).map (fun s => s.board_id)
  let db1 : Database :=
    { db with
      stickies := db.stickies.filter (fun s => !(s.id == stickyId))
      canvas_instances := db.canvas_instances.filter (fun ci => !(ci.sticky_id == stickyId)) }
  match boardIdOfSticky with
  | some bId => updateBoardTimestamp bId now db1
  | none => db1

/-- JavaScript `overridden_text || null`: both an absent override and an
empty-string override are stored as NULL (service.ts insert paths). -/
def normOverride : Option String → Option String
  | some t => if t == "" then none else some t
  | none => none

/-- Row conversion performed by the project:save handler
(index.ts lines 305-310) before calling saveBoardState. -/
def stickyToRow (boardRowId : String) (s : Sticky) : DbSticky :=
  { id := s.id, board_id := boardRowId, text := s.text, color := s.color, created_at := s.createdAt }

/-- Row conversion performed by the project:save handler
(index.ts lines 312-321) combined with the `|| null` normalisation of the
insert statement in service.ts saveBoardState. -/
def instanceToRow (boardRowId : String) (ci : CanvasInstance) : DbCanvasInstance :=
  { id := ci.id, board_id := boardRowId, sticky_id := ci.stickyId, x := ci.x, y := ci.y,
    width := ci.width, height := ci.height, z_index := ci.zIndex,
    overridden_text := normOverride ci.overriddenText }

/-- service.ts saveBoardState: inside one transaction, deletes every sticky
and canvas-instance row of the board, inserts the rows of the provided
snapshot, and touches the board timestamp. -/
def saveBoardState (boardRowId : String) (content : Content) (now : Nat) (db : Database) : Database :=
  let db1 : Database :=
    { db with
      stickies := db.stickies.filter (fun s => !(s.board_id == boardRowId))
                    ++ content.stickies.map (stickyToRow boardRowId)
      canvas_instances := db.canvas_instances.filter (fun ci => !(ci.board_id == boardRowId))
                    ++ content.canvasInstances.map (instanceToRow boardRowId) }
  updateBoardTimestamp boardRowId now db1

/-- Roster entry (types.ts UserInfo), keyed in the board roster by userId. -/
structure UserInfo where
  userId : String
  username : String
  socketId : String
  joinedAt : Nat
deriving Repr, DecidableEq

/-- Resident board (types.ts BoardData); `connectedUsers` is a JS Map keyed
by userId, modelled as an association list. -/
structure BoardData where
  id : String
  ownerId : String
  ownerUsername : String
  project : Content
  connectedUsers : List (String × UserInfo)
  createdAt : Nat
  updatedAt : Nat
deriving Repr, DecidableEq

/-- Per-connection closure state of the index.ts connection handler
(`currentBoardId`, `currentUserId`). -/
structure ConnState where
  currentBoardId : Option String
  currentUserId : Option String
deriving Repr, DecidableEq

/-- Optional seed project a joiner may supply (`data.project` with its
optional `name`; only the content and the name reach the server paths). -/
structure SeedProject where
  name : Option String
  content : Content
deriving Repr, DecidableEq

/-- Payload of the board:join event (types.ts BoardJoinData). -/
structure BoardJoinData where
  boardId : String
  username : String
  userId : String
  project : Option SeedProject
deriving Repr, DecidableEq

/-- Every payload the server emits over the socket transport. -/
inductive Payload where
  | boardSync (content : Content) (ownerId : String) (ownerUsername : String)
      (roster : List (String × String))
  | userJoined (username : String) (userId : String) (totalUsers : Nat)
  | usersUpdated (roster : List (String × String))
  | userLeft (username : Option String) (userId : String) (totalUsers : Nat)
  | stickyCreated (sticky : Sticky)
  | stickyUpdated (stickyId : String) (updates : StickyPatch)
  | stickyDeleted (stickyId : String)
  | instanceCreated (inst : CanvasInstance)
  | instanceUpdated (instanceId : String) (updates : InstancePatch)
  | instanceDeleted (instanceId : String)
  | projectSaved (success : Bool)
  | boardError (message : String) (code : String)
  | stickyActivity (instanceId : String) (userId : String) (username : String)
      (action : String) (timestamp : Nat)
  | stickyActivityClear (instanceId : String)
deriving Repr, DecidableEq

/-- A delivery produced by a handler: the receiving socket and the payload. -/
abbrev Delivery := String × Payload

/-- Full server state: resident boards (the in-memory `boards` Map), one
closure state per live connection, the socket.io room memberships
(socketId, roomId) established by `socket.join`, and durable storage. -/
structure ServerState where
  boards : List (String × BoardData)
  conns : List (String × ConnState)
  rooms : List (String × String)
  db : Database
deriving Repr, DecidableEq

/-- Models socket.io `socket.join(roomId)`: a no-op when the socket is
already in the room. -/
def roomJoin (socketId roomId : String) (rooms : List (String × String)) : List (String × String) :=
  if (socketId, roomId) ∈ rooms then rooms else rooms ++ [(socketId, roomId)]

/-- The sockets currently joined to a room. -/
def roomMembers (rooms : List (String × String)) (roomId : String) : List String :=
  (rooms.filter (fun p => p.2 == roomId)).map (fun p => p.1)

/-- Models socket.io `io.to(roomId).emit`: one delivery per room member. -/
def emitToRoom (rooms : List (String × String)) (roomId : String) (p : Payload) : List Delivery :=
  (roomMembers rooms roomId).map (fun s => (s, p))

/-- Models socket.io `socket.to(roomId).emit` and
`socket.broadcast.to(roomId).emit`: one delivery per room member other than
the sender. -/
def emitToRoomExcept (rooms : List (String × String)) (roomId sender : String) (p : Payload) : List Delivery :=
  ((roomMembers rooms roomId).filter (fun s => !(s == sender))).map (fun s => (s, p))

/-- Roster snapshot broadcast with users:updated and board:sync:
`Array.from(connectedUsers.values()).map(u => (\x7buserId, username\x7d))`. -/
def rosterSnapshot (roster : List (String × UserInfo)) : List (String × String) :=
  roster.map (fun p => (p.2.userId, p.2.username))

/-- Reconstruction of a resident board from a durable record
(index.ts lines 85-110). -/
def boardFromFullBoard (boardId : String) (fb : FullBoard) : BoardData :=
  { id := boardId
    ownerId := fb.board.owner_id
    ownerUsername := fb.board.owner_username
    project :=
      { stickies := fb.stickies.map (fun s =>
          { id := s.id, text := s.text, color := s.color, createdAt := s.created_at })
        canvasInstances := fb.canvasInstances.map (fun ci =>
          { id := ci.id, stickyId := ci.sticky_id, x := ci.x, y := ci.y, width := ci.width,
            height := ci.height, zIndex := ci.z_index, overriddenText := ci.overridden_text }) }
    connectedUsers := []
    createdAt := fb.board.created_at
    updatedAt := fb.board.updated_at }

/-- Broadcast payload of each mutation kind: exactly the event payload
relayed by `socket.broadcast.to(boardId).emit` in the six handlers, never
the full board state. -/
def mutationBroadcast : MutationEvent → Payload
  | .stickyCreate s => .stickyCreated s
  | .stickyUpdate sid p => .stickyUpdated sid p
  | .stickyDelete sid => .stickyDeleted sid
  | .instanceCreate i => .instanceCreated i
  | .instanceUpdate iid p => .instanceUpdated iid p
  | .instanceDelete iid => .instanceDeleted iid

/-- The inbound socket events handled by the index.ts connection handler. -/
inductive ServerEvent where
  | boardJoin (socketId : String) (data : BoardJoinData)
  | mutation (socketId : String) (boardId : String) (ev : MutationEvent)
  | projectSave (socketId : String) (boardId : String) (project : Content)
  | stickyActivity (socketId : String) (boardId : String) (instanceId : String)
      (userId : String) (username : String) (action : String)
  | stickyActivityClear (socketId : String) (boardId : String) (instanceId : String)
  | disconnect (socketId : String)
deriving Repr, DecidableEq

/-- The `currentUserId` closure variable of the connection handling a given
socket. -/
def connUserId (st : ServerState) (socketId : String) : Option String :=
  match mapGet socketId st.conns with
  | some c => c.currentUserId
  | none => none

/-- The board:join handler (index.ts lines 60-176). The `try/catch` around
the database createBoard is modelled by falling back to the unchanged
database when createBoard fails; the generated primary key of the new board
row is opaque, derived here from the clock. -/
def handleBoardJoin (now : Nat) (st : ServerState) (socketId : String) (data : BoardJoinData) :
    ServerState × List Delivery :=
  let conns1 := mapSet socketId
    { currentBoardId := some data.boardId, currentUserId := some data.userId } st.conns
  let rooms1 := roomJoin socketId data.boardId st.rooms
  let loaded : Option BoardData :=
    match mapGet data.boardId st.boards with
    | some bd => some bd
    | none =>
        match getBoardByBoardId st.db data.boardId with
        | some r =>
            match getFullBoard st.db r.id with
            | some fb => some (boardFromFullBoard data.boardId fb)
            | none => none
        | none => none
  let created : BoardData × Database :=
    match loaded with
    | some bd => (bd, st.db)
    | none =>
        let nb : BoardData :=
          { id := data.boardId
            ownerId := data.userId
            ownerUsername := data.username
            project := match data.project with
              | some sp => sp.content
              | none => Content.empty
            connectedUsers := []
            createdAt := now
            updatedAt := now }
        let db1 := match data.project with
          | some sp =>
              match sp.name with
              | some nm =>
                  match createBoard st.db nm data.userId data.boardId (String.append "board-db-" (toString now)) now with
                  | some (db2, _) => db2
                  | none => st.db
              | none => st.db
          | none => st.db
        (nb, db1)
  let info : UserInfo :=
    { userId := data.userId, username := data.username, socketId := socketId, joinedAt := now }
  let board1 : BoardData :=
    { created.1 with connectedUsers := mapSet data.userId info created.1.connectedUsers }
  let st1 : ServerState :=
    { boards := mapSet data.boardId board1 st.boards
      conns := conns1
      rooms := rooms1
      db := created.2 }
  let deliveries : List Delivery :=
    (socketId, Payload.boardSync board1.project board1.ownerId board1.ownerUsername
      (rosterSnapshot board1.connectedUsers))
    :: emitToRoomExcept rooms1 data.boardId socketId
        (Payload.userJoined data.username data.userId board1.connectedUsers.length)
    ++ emitToRoom rooms1 data.boardId
        (Payload.usersUpdated (rosterSnapshot board1.connectedUsers))
  (st1, deliveries)

/-- The disconnect handler (index.ts lines 366-398). socket.io removes the
disconnecting socket from its rooms before the handler runs, and the
connection closure state dies with the socket. -/
def handleDisconnect (st : ServerState) (socketId : String) : ServerState × List Delivery :=
  let rooms1 := st.rooms.filter (fun p => !(p.1 == socketId))
  let conns1 := mapDelete socketId st.conns
  match mapGet socketId st.conns with
  | some conn =>
      match conn.currentBoardId, conn.currentUserId with
      | some b, some u =>
          (match mapGet b st.boards with
           | some bd =>
               let user := mapGet u bd.connectedUsers
               let roster1 := mapDelete u bd.connectedUsers
               let boards1 :=
                 if roster1.isEmpty then mapDelete b st.boards
                 else mapSet b { bd with connectedUsers := roster1 } st.boards
               let deliveries :=
                 emitToRoomExcept rooms1 b socketId
                   (Payload.userLeft (user.map (fun x => x.username)) u roster1.length)
                 ++ emitToRoom rooms1 b (Payload.usersUpdated (rosterSnapshot roster1))
               ({ st with boards := boards1, rooms := rooms1, conns := conns1 }, deliveries)
           | none => ({ st with rooms := rooms1, conns := conns1 }, []))
      | _, _ => ({ st with rooms := rooms1, conns := conns1 }, [])
  | none => ({ st with rooms := rooms1, conns := conns1 }, [])

/-- One inbound event handled to completion (the single-threaded event loop
dequeues events one at a time), returning the next server state and the list
of deliveries the handler emitted. -/
def serverStep (now : Nat) (st : ServerState) : ServerEvent → ServerState × List Delivery
  | .boardJoin socketId data => handleBoardJoin now st socketId data
  | .mutation socketId boardId ev =>
      (match mapGet boardId st.boards with
       | none => (st, [])
       | some bd =>
           let bd1 : BoardData :=
             { bd with
               project := applyMutation ev bd.project
               updatedAt := if mutationFound ev bd.project then now else bd.updatedAt }
           ({ st with boards := mapSet boardId bd1 st.boards },
            emitToRoomExcept st.rooms boardId socketId (mutationBroadcast ev)))
  | .projectSave socketId boardId project =>
      (match mapGet boardId st.boards with
       | some bd =>
           if connUserId st socketId = some bd.ownerId then
             let bd1 : BoardData := { bd with project := project, updatedAt := now }
             let db1 := match getBoardByBoardId st.db boardId with
               | some r => saveBoardState r.id project now st.db
               | none => st.db
             ({ st with boards := mapSet boardId bd1 st.boards, db := db1 },
              [(socketId, Payload.projectSaved true)])
           else
             (st, [(socketId, Payload.boardError "Only the board owner can save" "UNAUTHORIZED")])
       | none =>
           (st, [(socketId, Payload.boardError "Only the board owner can save" "UNAUTHORIZED")]))
  | .stickyActivity socketId boardId instanceId userId username action =>
      (st, emitToRoomExcept st.rooms boardId socketId
        (Payload.stickyActivity instanceId userId username action now))
  | .stickyActivityClear socketId boardId instanceId =>
      (st, emitToRoomExcept st.rooms boardId socketId (Payload.stickyActivityClear instanceId))
  | .disconnect socketId => handleDisconnect st socketId

/-- Activity record kept by each client (useStore.ts stickyActivities values;
timestamp is the server-stamped announce time). -/
structure ActivityRecord where
  userId : String
  username : String
  action : String
  timestamp : Nat
deriving Repr, DecidableEq

/-- The client-side `stickyActivities` Map, keyed by instanceId. -/
abbrev ActivityMap := List (String × ActivityRecord)

/-- useStore.ts setStickyActivity, synchronous part: `null` removes the
record, a record adds or replaces it (lines 119-131). -/
def setStickyActivity (instanceId : String) (activity : Option ActivityRecord) (m : ActivityMap) : ActivityMap :=
  match activity with
  | none => mapDelete instanceId m
  | some a => mapSet instanceId a m

/-- Body of the 3-second timeout scheduled by setStickyActivity
(useStore.ts lines 135-140): clears the record only when the live record for
the instance still carries the timestamp the expiry was scheduled for. -/
def expiryFire (instanceId : String) (scheduledTimestamp : Nat) (m : ActivityMap) : ActivityMap :=
  match mapGet instanceId m with
  | some current =>
      if current.timestamp = scheduledTimestamp then setStickyActivity instanceId none m else m
  | none => m

/-! Helper lemmas about the association-list and list primitives. -/

theorem mapGet_mapSet_self {α : Type} (k : String) (v : α) (l : List (String × α)) :
    mapGet k (mapSet k v l) = some v := by
  induction l with
  | nil => simp [mapGet, mapSet]
  | cons p rest ih =>
      by_cases h : p.1 = k
      · simp [mapGet, mapSet, h]
      · simp [mapGet, mapSet, h, ih]

theorem mapGet_mapSet_ne {α : Type} (k k2 : String) (v : α) (l : List (String × α))
    (h : k ≠ k2) : mapGet k2 (mapSet k v l) = mapGet k2 l := by
  induction l with
  | nil => simp [mapGet, mapSet, h]
  | cons p rest ih =>
      by_cases hp : p.1 = k
      · simp [mapGet, mapSet, hp, h]
      · simp [mapGet, mapSet, hp, ih]

theorem mapGet_mapDelete_self {α : Type} (k : String) (l : List (String × α)) :
    mapGet k (mapDelete k l) = none := by
  induction l with
  | nil => simp [mapGet, mapDelete]
  | cons p rest ih =>
      by_cases hp : p.1 = k
      · simpa [mapDelete, hp] using ih
      · simpa [mapDelete, mapGet, hp] using ih

theorem mapGet_mapDelete_ne {α : Type} (k k2 : String) (l : List (String × α))
    (h : k ≠ k2) : mapGet k2 (mapDelete k l) = mapGet k2 l := by
  induction l with
  | nil => simp [mapGet, mapDelete]
  | cons p rest ih =>
      by_cases hp : p.1 = k
      · simpa [mapDelete, mapGet, hp, h] using ih
      · by_cases hq : p.1 = k2
        · simp [mapDelete, List.filter_cons, mapGet, hp, hq, Ne.symm h]
        · simpa [mapDelete, List.filter_cons, mapGet, hp, hq] using ih

theorem mem_of_mapGet {α : Type} {k : String} {v : α} {l : List (String × α)}
    (h : mapGet k l = some v) : (k, v) ∈ l := by
  induction l with
  | nil => simp [mapGet] at h
  | cons p rest ih =>
      obtain ⟨a, b⟩ := p
      by_cases hp : a = k
      · simp [mapGet, hp] at h
        subst hp
        subst h
        exact List.mem_cons_self _ _
      · simp [mapGet, hp] at h
        exact List.mem_cons_of_mem _ (ih h)

theorem mem_mapSet_elim {α : Type} {k : String} {v : α} {l : List (String × α)}
    {p : String × α} (h : p ∈ mapSet k v l) : p = (k, v) ∨ p ∈ l := by
  induction l with
  | nil => simpa [mapSet] using h
  | cons q rest ih =>
      by_cases hq : q.1 = k
      · simp [mapSet, hq] at h
        rcases h with h | h
        · exact Or.inl h
        · exact Or.inr (List.mem_cons_of_mem _ h)
      · simp [mapSet, hq] at h
        rcases h with h | h
        · exact Or.inr (by simp [h])
        · rcases ih h with h2 | h2
          · exact Or.inl h2
          · exact Or.inr (List.mem_cons_of_mem _ h2)

theorem mem_mapDelete_elim {α : Type} {k : String} {l : List (String × α)}
    {p : String × α} (h : p ∈ mapDelete k l) : p ∈ l :=
  List.mem_of_mem_filter h

theorem mapSet_ne_nil {α : Type} (k : String) (v : α) (l : List (String × α)) :
    mapSet k v l ≠ [] := by
  cases l with
  | nil => simp [mapSet]
  | cons p rest =>
      by_cases hp : p.1 = k
      · simp [mapSet, hp]
      · simp [mapSet, hp]

theorem updateFirst_of_not_any {α : Type} (p : α → Bool) (f : α → α) (l : List α)
    (h : ∀ x ∈ l, p x = false) : updateFirst p f l = l := by
  induction l with
  | nil => rfl
  | cons x xs ih =>
      have hx := h x (List.mem_cons_self x xs)
      simp [updateFirst, hx]
      exact ih (fun y hy => h y (List.mem_cons_of_mem _ hy))

theorem filter_all_holds {α : Type} (p : α → Bool) (l : List α) :
    (l.filter p).all p = true := by
  simp [List.all_eq_true]

theorem filter_not_of_none {α : Type} (p : α → Bool) (l : List α)
    (h : ∀ x ∈ l, p x = false) : l.filter (fun x => !(p x)) = l := by
  induction l with
  | nil => rfl
  | cons x xs ih =>
      have hx := h x (List.mem_cons_self x xs)
      simp [List.filter_cons, hx]
      exact fun y hy => h y (List.mem_cons_of_mem _ hy)

theorem mem_roomJoin_self (s r : String) (rooms : List (String × String)) :
    (s, r) ∈ roomJoin s r rooms := by
  by_cases h : (s, r) ∈ rooms
  · simp [roomJoin, h]
  · simp [roomJoin, h]

theorem dbDeleteSticky_stickies (sid : String) (now : Nat) (db : Database) :
    (dbDeleteSticky sid now db).stickies = db.stickies.filter (fun s => !(s.id == sid)) := by
  cases hf : db.stickies.find? (fun s => s.id == sid) <;>
    simp [dbDeleteSticky, updateBoardTimestamp, hf]

theorem dbDeleteSticky_instances (sid : String) (now : Nat) (db : Database) :
    (dbDeleteSticky sid now db).canvas_instances
      = db.canvas_instances.filter (fun ci => !(ci.sticky_id == sid)) := by
  cases hf : db.stickies.find? (fun s => s.id == sid) <;>
    simp [dbDeleteSticky, updateBoardTimestamp, hf]

/-! State-shape lemmas for the join and disconnect handlers. -/

theorem handleBoardJoin_new_state (now : Nat) (st : ServerState) (sock : String)
    (d : BoardJoinData)
    (hres : mapGet d.boardId st.boards = none)
    (hdb : getBoardByBoardId st.db d.boardId = none)
    (hseed : d.project = none) :
    (handleBoardJoin now st sock d).1 =
      { boards := mapSet d.boardId
          { id := d.boardId, ownerId := d.userId, ownerUsername := d.username,
            project := Content.empty,
            connectedUsers := [(d.userId, { userId := d.userId, username := d.username, socketId := sock, joinedAt := now })],
            createdAt := now, updatedAt := now } st.boards
        conns := mapSet sock { currentBoardId := some d.boardId, currentUserId := some d.userId } st.conns
        rooms := roomJoin sock d.boardId st.rooms
        db := st.db } := by
  simp [handleBoardJoin, hres, hdb, hseed, mapSet]

theorem handleBoardJoin_resident_state (now : Nat) (st : ServerState) (sock : String)
    (d : BoardJoinData) (bd : BoardData)
    (hres : mapGet d.boardId st.boards = some bd) :
    (handleBoardJoin now st sock d).1 =
      { boards :=
          mapSet d.boardId
            { bd with connectedUsers := mapSet d.userId ⟨d.userId, d.username, sock, now⟩ bd.connectedUsers }
            st.boards
        conns := mapSet sock ⟨some d.boardId, some d.userId⟩ st.conns
        rooms := roomJoin sock d.boardId st.rooms
        db := st.db } := by
  simp [handleBoardJoin, hres]

theorem handleDisconnect_evict_state (st : ServerState) (sock b u : String) (bd : BoardData)
    (hc : mapGet sock st.conns = some { currentBoardId := some b, currentUserId := some u })
    (hb : mapGet b st.boards = some bd)
    (hempty : (mapDelete u bd.connectedUsers).isEmpty = true) :
    (handleDisconnect st sock).1 =
      { st with boards := mapDelete b st.boards
                rooms := st.rooms.filter (fun p => !(p.1 == sock))
                conns := mapDelete sock st.conns } := by
  simp [handleDisconnect, hc, hb, hempty]

/-! Claim C10. -/

/-- C10: a project:save for a boardId with no resident Board always yields
the UNAUTHORIZED error event to the requester alone and leaves the whole
server state (durable storage included) unchanged, whatever the requester's
relation to the board in durable storage. -/
theorem save_without_resident_board_unauthorized
    (now : Nat) (st : ServerState) (sock b : String) (proj : Content)
    (h : mapGet b st.boards = none) :
    serverStep now st (.projectSave sock b proj) =
      (st, [(sock, Payload.boardError "Only the board owner can save" "UNAUTHORIZED")]) := by
  simp [serverStep, h]

/-- Witness for C10: the requester owns board b1 in durable storage, yet the
save is rejected and nothing is written because no Board is resident. -/
theorem save_without_resident_board_unauthorized_witness :
    serverStep 7
      ⟨[], [("s1", ⟨some "b1", some "u1"⟩)], [("s1", "b1")],
        ⟨[⟨"u1", "alice", "h", 0⟩], [⟨"db1", "p", "u1", "alice", "b1", 0, 0⟩], [], []⟩⟩
      (.projectSave "s1" "b1" Content.empty) =
      (⟨[], [("s1", ⟨some "b1", some "u1"⟩)], [("s1", "b1")],
        ⟨[⟨"u1", "alice", "h", 0⟩], [⟨"db1", "p", "u1", "alice", "b1", 0, 0⟩], [], []⟩⟩,
       [("s1", Payload.boardError "Only the board owner can save" "UNAUTHORIZED")]) :=
  save_without_resident_board_unauthorized 7 _ "s1" "b1" Content.empty rfl

/-! Claim C2. -/

/-- C2: a project:save from a connection whose userId differs from the
resident Board ownerId leaves the entire server state (Board content and
durable storage) unchanged, broadcasts nothing, and sends the requester
alone a board:error event with code UNAUTHORIZED. -/
theorem nonowner_save_rejected
    (now : Nat) (st : ServerState) (sock b u : String) (proj : Content) (bd : BoardData)
    (hb : mapGet b st.boards = some bd)
    (hcu : connUserId st sock = some u)
    (hne : u ≠ bd.ownerId) :
    serverStep now st (.projectSave sock b proj) =
      (st, [(sock, Payload.boardError "Only the board owner can save" "UNAUTHORIZED")]) := by
  have hu : ¬ (connUserId st sock = some bd.ownerId) := by
    rw [hcu]
    simp [hne]
  simp [serverStep, hb, hu]

/-- Witness for C2: user u2 attempts to save a board owned by u1. -/
theorem nonowner_save_rejected_witness :
    serverStep 9
      ⟨[("b1", ⟨"b1", "u1", "alice", Content.empty, [], 0, 0⟩)],
       [("s2", ⟨some "b1", some "u2"⟩)], [("s2", "b1")], ⟨[], [], [], []⟩⟩
      (.projectSave "s2" "b1" Content.empty) =
      (⟨[("b1", ⟨"b1", "u1", "alice", Content.empty, [], 0, 0⟩)],
        [("s2", ⟨some "b1", some "u2"⟩)], [("s2", "b1")], ⟨[], [], [], []⟩⟩,
       [("s2", Payload.boardError "Only the board owner can save" "UNAUTHORIZED")]) :=
  nonowner_save_rejected 9 _ "s2" "b1" "u2" Content.empty _ rfl rfl (by decide)

/-! Claim C3. -/

/-- C3: deleting a sticky cascades: after the sticky:delete handler completes
on a resident Board, the in-memory content holds no Sticky with the deleted
id and no CanvasInstance referencing it; and in durable storage, deleting a
sticky row removes every canvas-instance row referencing it (the schema
foreign-key ON DELETE CASCADE, active under PRAGMA foreign_keys = ON). -/
theorem sticky_delete_cascade
    (now : Nat) (st : ServerState) (sock b sid : String) (bd : BoardData)
    (hb : mapGet b st.boards = some bd) :
    (∃ bd2, mapGet b (serverStep now st (.mutation sock b (.stickyDelete sid))).1.boards = some bd2
       ∧ bd2.project.stickies.all (fun s => !(s.id == sid)) = true
       ∧ bd2.project.canvasInstances.all (fun ci => !(ci.stickyId == sid)) = true)
    ∧ (∀ db : Database,
         (dbDeleteSticky sid now db).stickies.all (fun s => !(s.id == sid)) = true
         ∧ (dbDeleteSticky sid now db).canvas_instances.all (fun ci => !(ci.sticky_id == sid)) = true) := by
  constructor
  · have hstep : mapGet b (serverStep now st (.mutation sock b (.stickyDelete sid))).1.boards
        = some { bd with project := applyMutation (.stickyDelete sid) bd.project, updatedAt := now } := by
      simp [serverStep, hb, mapGet_mapSet_self, mutationFound]
    refine ⟨_, hstep, ?_, ?_⟩
    · simp only [applyMutation]
      exact filter_all_holds _ _
    · simp only [applyMutation]
      exact filter_all_holds _ _
  · intro db
    constructor
    · rw [dbDeleteSticky_stickies]
      exact filter_all_holds _ _
    · rw [dbDeleteSticky_instances]
      exact filter_all_holds _ _

/-- Witness for C3: a board holding sticky s1 and two instances, one of which
references s1; the delete removes s1 and its instance in memory, and the
durable delete cascades likewise. -/
theorem sticky_delete_cascade_witness :
    (∃ bd2, mapGet "b1" (serverStep 3
        ⟨[("b1", ⟨"b1", "u1", "alice",
            ⟨[⟨"s1", "t", "c", 0⟩],
             [⟨"i1", "s1", 0, 0, 1, 1, 0, none⟩, ⟨"i2", "sZ", 0, 0, 1, 1, 0, none⟩]⟩,
            [("u1", ⟨"u1", "alice", "k1", 0⟩)], 0, 0⟩)],
          [], [], ⟨[], [], [], []⟩⟩
        (.mutation "k1" "b1" (.stickyDelete "s1"))).1.boards = some bd2
       ∧ bd2.project.stickies.all (fun s => !(s.id == "s1")) = true
       ∧ bd2.project.canvasInstances.all (fun ci => !(ci.stickyId == "s1")) = true)
    ∧ (∀ db : Database,
         (dbDeleteSticky "s1" 3 db).stickies.all (fun s => !(s.id == "s1")) = true
         ∧ (dbDeleteSticky "s1" 3 db).canvas_instances.all (fun ci => !(ci.sticky_id == "s1")) = true) :=
  sticky_delete_cascade 3 _ "k1" "b1" "s1" _ rfl

/-! Claim C8. -/

/-- C8: the client-side 3-second expiry clears an activity record only when
the live record for that instance still carries the timestamp the expiry was
scheduled for; in particular a record installed by a newer announce with a
different timestamp is never clobbered by an older scheduled expiry, under
any interleaving of announce, clear and expiry steps. -/
theorem activity_expiry_timestamp_guard (m : ActivityMap) (i : String) (t : Nat) :
    (∀ a, mapGet i m = some a → a.timestamp ≠ t → expiryFire i t m = m)
    ∧ (∀ a, mapGet i m = some a → a.timestamp = t → mapGet i (expiryFire i t m) = none)
    ∧ (mapGet i m = none → expiryFire i t m = m)
    ∧ (∀ a, a.timestamp ≠ t →
        expiryFire i t (setStickyActivity i (some a) m) = setStickyActivity i (some a) m) := by
  refine ⟨?_, ?_, ?_, ?_⟩
  · intro a ha hne
    simp [expiryFire, ha, hne]
  · intro a ha ht
    simp [expiryFire, ha, ht, setStickyActivity, mapGet_mapDelete_self]
  · intro h
    simp [expiryFire, h]
  · intro a hne
    simp [expiryFire, setStickyActivity, mapGet_mapSet_self, hne]

/-- Witness for C8: an expiry scheduled for timestamp 5 leaves the newer
record with timestamp 9 untouched, while an expiry for the matching
timestamp 9 clears it. -/
theorem activity_expiry_timestamp_guard_witness :
    expiryFire "i1" 5 [("i1", { userId := "u1", username := "alice", action := "moving", timestamp := 9 })]
      = [("i1", { userId := "u1", username := "alice", action := "moving", timestamp := 9 })]
    ∧ mapGet "i1" (expiryFire "i1" 9 [("i1", { userId := "u1", username := "alice", action := "moving", timestamp := 9 })]) = none :=
  ⟨(activity_expiry_timestamp_guard _ "i1" 5).1 _ rfl (by decide),
   (activity_expiry_timestamp_guard _ "i1" 9).2.1 _ rfl rfl⟩

/-! Claim C1. -/

/-- Whether a mutation event is an update or a delete (the kinds C1 ranges
over). -/
def isUpdateOrDelete : MutationEvent → Bool
  | .stickyCreate _ => false
  | .instanceCreate _ => false
  | _ => true

/-- The target identifier of an update/delete mutation is absent from the
given content; for a sticky delete this covers both the sticky id and any
instance reference to it, since the handler also filters those. -/
def targetAbsent : MutationEvent → Content → Bool
  | .stickyUpdate sid _, c => !(c.stickies.any (fun s => s.id == sid))
  | .stickyDelete sid, c =>
      !(c.stickies.any (fun s => s.id == sid)) && !(c.canvasInstances.any (fun ci => ci.stickyId == sid))
  | .instanceUpdate iid _, c => !(c.canvasInstances.any (fun ci => ci.id == iid))
  | .instanceDelete iid, c => !(c.canvasInstances.any (fun ci => ci.id == iid))
  | _, _ => false

/-- Counterexample to C1 as stated: a sticky:update naming an id absent from
the resident board leaves the content unchanged, yet the handler still
relays the event to the other member of the room (the broadcast sits outside
the found-index check), so "emits no broadcast" is false. -/
theorem absent_target_broadcast_cex :
    targetAbsent (.stickyUpdate "sX" ⟨none, none⟩) Content.empty = true
    ∧ (serverStep 5
        ⟨[("b1", ⟨"b1", "u1", "alice", Content.empty,
            [("u1", ⟨"u1", "alice", "k1", 0⟩), ("u2", ⟨"u2", "bob", "k2", 0⟩)], 0, 0⟩)],
          [("k1", ⟨some "b1", some "u1"⟩), ("k2", ⟨some "b1", some "u2"⟩)],
          [("k1", "b1"), ("k2", "b1")], ⟨[], [], [], []⟩⟩
        (.mutation "k1" "b1" (.stickyUpdate "sX" ⟨none, none⟩))).2
      = [("k2", Payload.stickyUpdated "sX" ⟨none, none⟩)]
    ∧ (mapGet "b1" (serverStep 5
        ⟨[("b1", ⟨"b1", "u1", "alice", Content.empty,
            [("u1", ⟨"u1", "alice", "k1", 0⟩), ("u2", ⟨"u2", "bob", "k2", 0⟩)], 0, 0⟩)],
          [("k1", ⟨some "b1", some "u1"⟩), ("k2", ⟨some "b1", some "u2"⟩)],
          [("k1", "b1"), ("k2", "b1")], ⟨[], [], [], []⟩⟩
        (.mutation "k1" "b1" (.stickyUpdate "sX" ⟨none, none⟩))).1.boards).map BoardData.project
      = some Content.empty := by
  refine ⟨rfl, rfl, rfl⟩

/-- C1 amended: for every update or delete mutation whose target identifier
is absent from the resident Board content, the handler leaves the content
unchanged but still relays the event payload to every other member of the
room (the source broadcasts unconditionally whenever the board is
resident). -/
theorem absent_target_content_unchanged_still_broadcasts
    (now : Nat) (st : ServerState) (sock b : String) (ev : MutationEvent) (bd : BoardData)
    (hb : mapGet b st.boards = some bd)
    (hk : isUpdateOrDelete ev = true)
    (ha : targetAbsent ev bd.project = true) :
    ((mapGet b (serverStep now st (.mutation sock b ev)).1.boards).map BoardData.project
        = some bd.project)
    ∧ (serverStep now st (.mutation sock b ev)).2
        = emitToRoomExcept st.rooms b sock (mutationBroadcast ev) := by
  have hcontent : applyMutation ev bd.project = bd.project := by
    cases ev with
    | stickyCreate s => simp [isUpdateOrDelete] at hk
    | instanceCreate i => simp [isUpdateOrDelete] at hk
    | stickyUpdate sid p =>
        simp [targetAbsent, List.any_eq_true] at ha
        have : ∀ s ∈ bd.project.stickies, (fun s => s.id == sid) s = false := by
          intro s hs
          simpa using ha s hs
        simp [applyMutation, updateFirst_of_not_any _ _ _ this]
    | instanceUpdate iid p =>
        simp [targetAbsent, List.any_eq_true] at ha
        have : ∀ ci ∈ bd.project.canvasInstances, (fun ci => ci.id == iid) ci = false := by
          intro ci hci
          simpa using ha ci hci
        simp [applyMutation, updateFirst_of_not_any _ _ _ this]
    | stickyDelete sid =>
        simp [targetAbsent, List.any_eq_true] at ha
        have h1 : ∀ s ∈ bd.project.stickies, (fun s => s.id == sid) s = false := by
          intro s hs
          simpa using ha.1 s hs
        have h2 : ∀ ci ∈ bd.project.canvasInstances, (fun ci => ci.stickyId == sid) ci = false := by
          intro ci hci
          simpa using ha.2 ci hci
        simp [applyMutation, filter_not_of_none _ _ h1, filter_not_of_none _ _ h2]
    | instanceDelete iid =>
        simp [targetAbsent, List.any_eq_true] at ha
        have h1 : ∀ ci ∈ bd.project.canvasInstances, (fun ci => ci.id == iid) ci = false := by
          intro ci hci
          simpa using ha ci hci
        simp [applyMutation, filter_not_of_none _ _ h1]
  constructor
  · simp [serverStep, hb, mapGet_mapSet_self, hcontent]
  · simp [serverStep, hb]

/-- Witness for the amended C1: deleting the absent instance iZ from a board
with one resident instance changes nothing but is still broadcast to the
other member. -/
theorem absent_target_content_unchanged_still_broadcasts_witness :
    ((mapGet "b1" (serverStep 5
        ⟨[("b1", ⟨"b1", "u1", "alice", ⟨[], [⟨"i1", "s1", 0, 0, 1, 1, 0, none⟩]⟩,
            [("u1", ⟨"u1", "alice", "k1", 0⟩), ("u2", ⟨"u2", "bob", "k2", 0⟩)], 0, 0⟩)],
          [("k1", ⟨some "b1", some "u1"⟩), ("k2", ⟨some "b1", some "u2"⟩)],
          [("k1", "b1"), ("k2", "b1")], ⟨[], [], [], []⟩⟩
        (.mutation "k1" "b1" (.instanceDelete "iZ"))).1.boards).map BoardData.project
      = some ⟨[], [⟨"i1", "s1", 0, 0, 1, 1, 0, none⟩]⟩)
    ∧ (serverStep 5
        ⟨[("b1", ⟨"b1", "u1", "alice", ⟨[], [⟨"i1", "s1", 0, 0, 1, 1, 0, none⟩]⟩,
            [("u1", ⟨"u1", "alice", "k1", 0⟩), ("u2", ⟨"u2", "bob", "k2", 0⟩)], 0, 0⟩)],
          [("k1", ⟨some "b1", some "u1"⟩), ("k2", ⟨some "b1", some "u2"⟩)],
          [("k1", "b1"), ("k2", "b1")], ⟨[], [], [], []⟩⟩
        (.mutation "k1" "b1" (.instanceDelete "iZ"))).2
      = emitToRoomExcept [("k1", "b1"), ("k2", "b1")] "b1" "k1"
          (mutationBroadcast (.instanceDelete "iZ")) :=
  absent_target_content_unchanged_still_broadcasts 5
    ⟨[("b1", ⟨"b1", "u1", "alice", ⟨[], [⟨"i1", "s1", 0, 0, 1, 1, 0, none⟩]⟩,
        [("u1", ⟨"u1", "alice", "k1", 0⟩), ("u2", ⟨"u2", "bob", "k2", 0⟩)], 0, 0⟩)],
      [("k1", ⟨some "b1", some "u1"⟩), ("k2", ⟨some "b1", some "u2"⟩)],
      [("k1", "b1"), ("k2", "b1")], ⟨[], [], [], []⟩⟩
    "k1" "b1" (.instanceDelete "iZ")
    ⟨"b1", "u1", "alice", ⟨[], [⟨"i1", "s1", 0, 0, 1, 1, 0, none⟩]⟩,
      [("u1", ⟨"u1", "alice", "k1", 0⟩), ("u2", ⟨"u2", "bob", "k2", 0⟩)], 0, 0⟩
    rfl rfl (by decide)

/-! Claim C5. -/

/-- C5: an accepted mutation is relayed with exactly the event payload to
exactly the room members other than the originator: the delivery list is the
room roster minus the sender, each delivery carries the event payload (never
full board state), no delivery targets the originator, and every other room
member receives it exactly once. -/
theorem mutation_broadcast_exact
    (now : Nat) (st : ServerState) (sock b : String) (ev : MutationEvent) (bd : BoardData)
    (hb : mapGet b st.boards = some bd)
    (hnd : (roomMembers st.rooms b).Nodup) :
    ((serverStep now st (.mutation sock b ev)).2
        = ((roomMembers st.rooms b).filter (fun s => !(s == sock))).map (fun s => (s, mutationBroadcast ev)))
    ∧ (∀ d ∈ (serverStep now st (.mutation sock b ev)).2, d.1 ≠ sock ∧ d.2 = mutationBroadcast ev)
    ∧ (∀ m, m ∈ roomMembers st.rooms b → m ≠ sock →
        ((serverStep now st (.mutation sock b ev)).2.map Prod.fst).count m = 1) := by
  have hds : (serverStep now st (.mutation sock b ev)).2
      = ((roomMembers st.rooms b).filter (fun s => !(s == sock))).map (fun s => (s, mutationBroadcast ev)) := by
    simp [serverStep, hb, emitToRoomExcept]
  refine ⟨hds, ?_, ?_⟩
  · intro d hd
    rw [hds] at hd
    simp [List.mem_map] at hd
    obtain ⟨s, hs, rfl⟩ := hd
    exact ⟨hs.2, rfl⟩
  · intro m hm hmne
    rw [hds]
    have hmap : ((((roomMembers st.rooms b).filter (fun s => !(s == sock))).map
        (fun s => (s, mutationBroadcast ev))).map Prod.fst)
        = (roomMembers st.rooms b).filter (fun s => !(s == sock)) := by
      simp [List.map_map, Function.comp_def]
    rw [hmap]
    have hmem : m ∈ (roomMembers st.rooms b).filter (fun s => !(s == sock)) := by
      apply List.mem_filter.mpr
      exact ⟨hm, by simp [hmne]⟩
    exact List.count_eq_one_of_mem (hnd.filter _) hmem

/-- Witness for C5: a three-member room; the sender k1 is excluded and k2,
k3 each receive the created sticky exactly once. -/
theorem mutation_broadcast_exact_witness :
    ((serverStep 4
        ⟨[("b1", ⟨"b1", "u1", "alice", Content.empty,
            [("u1", ⟨"u1", "alice", "k1", 0⟩)], 0, 0⟩)],
          [], [("k1", "b1"), ("k2", "b1"), ("k3", "b1")], ⟨[], [], [], []⟩⟩
        (.mutation "k1" "b1" (.stickyCreate ⟨"s1", "hello", "#fff", 4⟩))).2
      = [("k2", Payload.stickyCreated ⟨"s1", "hello", "#fff", 4⟩),
         ("k3", Payload.stickyCreated ⟨"s1", "hello", "#fff", 4⟩)])
    ∧ (((serverStep 4
        ⟨[("b1", ⟨"b1", "u1", "alice", Content.empty,
            [("u1", ⟨"u1", "alice", "k1", 0⟩)], 0, 0⟩)],
          [], [("k1", "b1"), ("k2", "b1"), ("k3", "b1")], ⟨[], [], [], []⟩⟩
        (.mutation "k1" "b1" (.stickyCreate ⟨"s1", "hello", "#fff", 4⟩))).2.map Prod.fst).count "k2" = 1) := by
  have h := mutation_broadcast_exact 4
    ⟨[("b1", ⟨"b1", "u1", "alice", Content.empty,
        [("u1", ⟨"u1", "alice", "k1", 0⟩)], 0, 0⟩)],
      [], [("k1", "b1"), ("k2", "b1"), ("k3", "b1")], ⟨[], [], [], []⟩⟩
    "k1" "b1" (.stickyCreate ⟨"s1", "hello", "#fff", 4⟩) _ rfl (by decide)
  refine ⟨?_, h.2.2 "k2" (by decide) (by decide)⟩
  rw [h.1]
  rfl

/-! Claim C4. -/

/-- A sequence of mutation events for one board, each tagged with the socket
it came from, handled to completion one after another by the server. -/
def runMutations (now : Nat) (b : String) (evs : List (String × MutationEvent)) (st : ServerState) : ServerState :=
  evs.foldl (fun s e => (serverStep now s (.mutation e.1 b e.2)).1) st

theorem runMutations_content (now : Nat) (b : String) (evs : List (String × MutationEvent)) :
    ∀ (st : ServerState) (bd : BoardData), mapGet b st.boards = some bd →
      (mapGet b (runMutations now b evs st).boards).map BoardData.project
        = some (evs.foldl (fun c e => applyMutation e.2 c) bd.project) := by
  induction evs with
  | nil =>
      intro st bd hb
      simp [runMutations, hb]
  | cons e rest ih =>
      intro st bd hb
      have hrun : runMutations now b (e :: rest) st
          = runMutations now b rest ((serverStep now st (.mutation e.1 b e.2)).1) := by
        simp [runMutations]
      have hstep : mapGet b ((serverStep now st (.mutation e.1 b e.2)).1).boards
          = some { bd with project := applyMutation e.2 bd.project,
                           updatedAt := if mutationFound e.2 bd.project then now else bd.updatedAt } := by
        simp [serverStep, hb, mapGet_mapSet_self]
      rw [hrun, ih _ _ hstep]
      simp

/-- C4: the Mutation Router is a pure fold over board content: for every
sequence of mutation events (from any sockets) applied to a resident Board
whose content starts empty, the resulting in-memory content equals the fold
of the pure content transformations over the empty content set — the router
keeps no state beyond the Board content itself. -/
theorem mutation_router_refines_pure_fold
    (now : Nat) (b : String) (evs : List (String × MutationEvent)) (st : ServerState) (bd : BoardData)
    (hb : mapGet b st.boards = some bd) (he : bd.project = Content.empty) :
    (mapGet b (runMutations now b evs st).boards).map BoardData.project
      = some (evs.foldl (fun c e => applyMutation e.2 c) Content.empty) := by
  have h := runMutations_content now b evs st bd hb
  rwa [he] at h

/-- Witness for C4: create a sticky, place it, then delete the sticky; the
board content and the pure fold agree (both end with no stickies and no
instances). -/
theorem mutation_router_refines_pure_fold_witness :
    (mapGet "b1" (runMutations 2 "b1"
        [("k1", .stickyCreate ⟨"s1", "t", "c", 1⟩),
         ("k2", .instanceCreate ⟨"i1", "s1", 0, 0, 1, 1, 0, none⟩),
         ("k1", .stickyDelete "s1")]
        ⟨[("b1", ⟨"b1", "u1", "alice", Content.empty,
            [("u1", ⟨"u1", "alice", "k1", 0⟩)], 0, 0⟩)],
          [], [], ⟨[], [], [], []⟩⟩).boards).map BoardData.project
      = some ([("k1", MutationEvent.stickyCreate ⟨"s1", "t", "c", 1⟩),
               ("k2", MutationEvent.instanceCreate ⟨"i1", "s1", 0, 0, 1, 1, 0, none⟩),
               ("k1", MutationEvent.stickyDelete "s1")].foldl
                (fun c e => applyMutation e.2 c) Content.empty) :=
  mutation_router_refines_pure_fold 2 "b1" _
    ⟨[("b1", ⟨"b1", "u1", "alice", Content.empty,
        [("u1", ⟨"u1", "alice", "k1", 0⟩)], 0, 0⟩)],
      [], [], ⟨[], [], [], []⟩⟩
    ⟨"b1", "u1", "alice", Content.empty, [("u1", ⟨"u1", "alice", "k1", 0⟩)], 0, 0⟩
    rfl rfl

/-! Claim C6. -/

/-- Owner identity of the Board resident for a given boardId. -/
def boardOwner (st : ServerState) (b : String) : Option (String × String) :=
  (mapGet b st.boards).map (fun bd => (bd.ownerId, bd.ownerUsername))

/-- C6: owner determination at join. When the boardId has a durable record,
the hydrated Board takes its owner from durable storage, whatever userId and
username the joiner claims; when neither a durable nor a resident record
exists, the joiner becomes owner; and a join to an already-resident Board
never changes its owner. -/
theorem join_owner_determination
    (now : Nat) (st : ServerState) (sock : String) (d : BoardJoinData) :
    (∀ r fb, mapGet d.boardId st.boards = none →
        getBoardByBoardId st.db d.boardId = some r →
        getFullBoard st.db r.id = some fb →
        boardOwner (serverStep now st (.boardJoin sock d)).1 d.boardId
          = some (fb.board.owner_id, fb.board.owner_username))
    ∧ (mapGet d.boardId st.boards = none →
        getBoardByBoardId st.db d.boardId = none →
        boardOwner (serverStep now st (.boardJoin sock d)).1 d.boardId
          = some (d.userId, d.username))
    ∧ (∀ bd, mapGet d.boardId st.boards = some bd →
        boardOwner (serverStep now st (.boardJoin sock d)).1 d.boardId
          = some (bd.ownerId, bd.ownerUsername)) := by
  refine ⟨?_, ?_, ?_⟩
  · intro r fb hres hdb hfb
    simp [serverStep, handleBoardJoin, boardOwner, hres, hdb, hfb,
      mapGet_mapSet_self, boardFromFullBoard]
  · intro hres hdb
    simp [serverStep, handleBoardJoin, boardOwner, hres, hdb, mapGet_mapSet_self]
  · intro bd hres
    simp [serverStep, handleBoardJoin, boardOwner, hres, mapGet_mapSet_self]

/-- Witness for C6: joiner u9 joins board b1 whose durable record is owned
by u1, and does not become owner; a join to the fresh board b2 with no
record anywhere makes the joiner owner; a join to the resident board b3
leaves its owner u3. -/
theorem join_owner_determination_witness :
    (boardOwner (serverStep 6
        ⟨[], [], [], ⟨[], [⟨"db1", "p", "u1", "alice", "b1", 0, 0⟩], [], []⟩⟩
        (.boardJoin "k9" ⟨"b1", "mallory", "u9", none⟩)).1 "b1" = some ("u1", "alice"))
    ∧ (boardOwner (serverStep 6
        ⟨[], [], [], ⟨[], [], [], []⟩⟩
        (.boardJoin "k9" ⟨"b2", "mallory", "u9", none⟩)).1 "b2" = some ("u9", "mallory"))
    ∧ (boardOwner (serverStep 6
        ⟨[("b3", ⟨"b3", "u3", "carol", Content.empty, [("u3", ⟨"u3", "carol", "k3", 0⟩)], 0, 0⟩)],
          [], [], ⟨[], [], [], []⟩⟩
        (.boardJoin "k9" ⟨"b3", "mallory", "u9", none⟩)).1 "b3" = some ("u3", "carol")) :=
  ⟨(join_owner_determination 6
      ⟨[], [], [], ⟨[], [⟨"db1", "p", "u1", "alice", "b1", 0, 0⟩], [], []⟩⟩
      "k9" ⟨"b1", "mallory", "u9", none⟩).1
      ⟨"db1", "p", "u1", "alice", "b1", 0, 0⟩
      ⟨⟨"db1", "p", "u1", "alice", "b1", 0, 0⟩, [], []⟩ rfl rfl rfl,
   (join_owner_determination 6 ⟨[], [], [], ⟨[], [], [], []⟩⟩
      "k9" ⟨"b2", "mallory", "u9", none⟩).2.1 rfl rfl,
   (join_owner_determination 6
      ⟨[("b3", ⟨"b3", "u3", "carol", Content.empty, [("u3", ⟨"u3", "carol", "k3", 0⟩)], 0, 0⟩)],
        [], [], ⟨[], [], [], []⟩⟩
      "k9" ⟨"b3", "mallory", "u9", none⟩).2.2
      ⟨"b3", "u3", "carol", Content.empty, [("u3", ⟨"u3", "carol", "k3", 0⟩)], 0, 0⟩ rfl⟩

/-! Claim C7. -/

/-- Invariant: every Board resident in the registry has a non-empty roster. -/
def rosterNonempty (st : ServerState) : Prop :=
  ∀ p ∈ st.boards, p.2.connectedUsers ≠ []

/-- C7: every event handler preserves the non-empty-roster invariant; in
particular a disconnect that empties a roster evicts the Board from the
registry, so at every event-handler boundary each resident Board has at
least one roster entry. -/
theorem roster_nonempty_invariant (now : Nat) (st : ServerState) (e : ServerEvent)
    (h : rosterNonempty st) : rosterNonempty (serverStep now st e).1 := by
  cases e with
  | boardJoin sock d =>
      intro p hp
      simp only [serverStep, handleBoardJoin] at hp
      rcases mem_mapSet_elim hp with rfl | hpm
      · exact mapSet_ne_nil _ _ _
      · exact h _ hpm
  | mutation sock b ev =>
      cases hb : mapGet b st.boards with
      | none => simpa [serverStep, hb] using h
      | some bd =>
          intro p hp
          simp only [serverStep, hb] at hp
          rcases mem_mapSet_elim hp with rfl | hpm
          · exact h (b, bd) (mem_of_mapGet hb)
          · exact h _ hpm
  | projectSave sock b proj =>
      cases hb : mapGet b st.boards with
      | none => simpa [serverStep, hb] using h
      | some bd =>
          by_cases hcu : connUserId st sock = some bd.ownerId
          · intro p hp
            simp only [serverStep, hb, if_pos hcu] at hp
            rcases mem_mapSet_elim hp with rfl | hpm
            · exact h (b, bd) (mem_of_mapGet hb)
            · exact h _ hpm
          · simpa [serverStep, hb, hcu] using h
  | stickyActivity sock b iid uid un act => simpa [serverStep] using h
  | stickyActivityClear sock b iid => simpa [serverStep] using h
  | disconnect sock =>
      cases hc : mapGet sock st.conns with
      | none => simpa [serverStep, handleDisconnect, hc] using h
      | some conn =>
          obtain ⟨cb, cu⟩ := conn
          cases cb with
          | none => simpa [serverStep, handleDisconnect, hc] using h
          | some b =>
              cases cu with
              | none => simpa [serverStep, handleDisconnect, hc] using h
              | some u =>
                  cases hb : mapGet b st.boards with
                  | none => simpa [serverStep, handleDisconnect, hc, hb] using h
                  | some bd =>
                      cases hemp : (mapDelete u bd.connectedUsers).isEmpty with
                      | true =>
                          intro p hp
                          simp [serverStep, handleDisconnect, hc, hb, hemp] at hp
                          exact h _ (mem_mapDelete_elim hp)
                      | false =>
                          intro p hp
                          simp [serverStep, handleDisconnect, hc, hb, hemp] at hp
                          rcases mem_mapSet_elim hp with rfl | hpm
                          · intro hnil
                            have h0 : mapDelete u bd.connectedUsers = [] := hnil
                            rw [h0] at hemp
                            simp [List.isEmpty] at hemp
                          · exact h _ hpm

/-- Witness for C7: on a state holding two boards, a disconnect that empties
board b1 evicts it, and the invariant still holds afterwards. -/
theorem roster_nonempty_invariant_witness :
    rosterNonempty (serverStep 5
      ⟨[("b1", ⟨"b1", "u1", "alice", Content.empty, [("u1", ⟨"u1", "alice", "k1", 0⟩)], 0, 0⟩),
        ("b2", ⟨"b2", "u2", "bob", Content.empty, [("u2", ⟨"u2", "bob", "k2", 0⟩)], 0, 0⟩)],
        [("k1", ⟨some "b1", some "u1"⟩), ("k2", ⟨some "b2", some "u2"⟩)],
        [("k1", "b1"), ("k2", "b2")], ⟨[], [], [], []⟩⟩
      (.disconnect "k1")).1 :=
  roster_nonempty_invariant 5
    ⟨[("b1", ⟨"b1", "u1", "alice", Content.empty, [("u1", ⟨"u1", "alice", "k1", 0⟩)], 0, 0⟩),
      ("b2", ⟨"b2", "u2", "bob", Content.empty, [("u2", ⟨"u2", "bob", "k2", 0⟩)], 0, 0⟩)],
      [("k1", ⟨some "b1", some "u1"⟩), ("k2", ⟨some "b2", some "u2"⟩)],
      [("k1", "b1"), ("k2", "b2")], ⟨[], [], [], []⟩⟩
    (.disconnect "k1") (by simp [rosterNonempty])

/-! Claim C9. -/

/-- C9: the roster is keyed by userId, not by connection. When the same
userId joins a fresh board from two different connections, the second join
overwrites the first RosterEntry, leaving exactly one entry for that userId;
a disconnect of the first connection then removes that single entry and the
board is evicted even though the second connection is still in the room. -/
theorem roster_keyed_by_userId
    (st : ServerState) (b u c1 c2 n1 n2 : String) (t1 t2 t3 : Nat)
    (st1 st2 st3 : ServerState)
    (hres : mapGet b st.boards = none)
    (hdb : getBoardByBoardId st.db b = none)
    (hc : c1 ≠ c2)
    (hst1 : st1 = (serverStep t1 st (.boardJoin c1 ⟨b, n1, u, none⟩)).1)
    (hst2 : st2 = (serverStep t2 st1 (.boardJoin c2 ⟨b, n2, u, none⟩)).1)
    (hst3 : st3 = (serverStep t3 st2 (.disconnect c1)).1) :
    ((mapGet b st2.boards).map BoardData.connectedUsers = some [(u, ⟨u, n2, c2, t2⟩)])
    ∧ mapGet b st3.boards = none
    ∧ (c2, b) ∈ st3.rooms := by
  have h1 : st1 =
      { boards := mapSet b ⟨b, u, n1, Content.empty, [(u, ⟨u, n1, c1, t1⟩)], t1, t1⟩ st.boards
        conns := mapSet c1 ⟨some b, some u⟩ st.conns
        rooms := roomJoin c1 b st.rooms
        db := st.db } := by
    rw [hst1]
    exact handleBoardJoin_new_state t1 st c1 ⟨b, n1, u, none⟩ hres hdb rfl
  have hb1 : mapGet b st1.boards
      = some ⟨b, u, n1, Content.empty, [(u, ⟨u, n1, c1, t1⟩)], t1, t1⟩ := by
    rw [h1]
    exact mapGet_mapSet_self _ _ _
  have h2 : st2 =
      { boards := mapSet b
          ⟨b, u, n1, Content.empty, mapSet u ⟨u, n2, c2, t2⟩ [(u, ⟨u, n1, c1, t1⟩)], t1, t1⟩
          st1.boards
        conns := mapSet c2 ⟨some b, some u⟩ st1.conns
        rooms := roomJoin c2 b st1.rooms
        db := st1.db } := by
    rw [hst2]
    exact handleBoardJoin_resident_state t2 st1 c2 ⟨b, n2, u, none⟩ _ hb1
  have hroster : mapSet u (⟨u, n2, c2, t2⟩ : UserInfo) [(u, ⟨u, n1, c1, t1⟩)]
      = [(u, ⟨u, n2, c2, t2⟩)] := by
    simp [mapSet]
  have hb2 : mapGet b st2.boards
      = some ⟨b, u, n1, Content.empty, [(u, ⟨u, n2, c2, t2⟩)], t1, t1⟩ := by
    rw [h2]
    show mapGet b (mapSet b
      ⟨b, u, n1, Content.empty, mapSet u ⟨u, n2, c2, t2⟩ [(u, ⟨u, n1, c1, t1⟩)], t1, t1⟩
      st1.boards) = _
    rw [hroster]
    exact mapGet_mapSet_self _ _ _
  have hconn : mapGet c1 st2.conns = some ⟨some b, some u⟩ := by
    rw [h2]
    show mapGet c1 (mapSet c2 _ st1.conns) = _
    rw [mapGet_mapSet_ne c2 c1 _ _ (Ne.symm hc), h1]
    exact mapGet_mapSet_self _ _ _
  have hempty : (mapDelete u [((u : String), (⟨u, n2, c2, t2⟩ : UserInfo))]).isEmpty = true := by
    simp [mapDelete]
  have h3 : st3 =
      { st2 with boards := mapDelete b st2.boards
                 rooms := st2.rooms.filter (fun p => !(p.1 == c1))
                 conns := mapDelete c1 st2.conns } := by
    rw [hst3]
    exact handleDisconnect_evict_state st2 c1 b u _ hconn hb2 hempty
  refine ⟨?_, ?_, ?_⟩
  · rw [hb2]
    rfl
  · rw [h3]
    show mapGet b (mapDelete b st2.boards) = none
    exact mapGet_mapDelete_self _ _
  · rw [h3]
    show (c2, b) ∈ st2.rooms.filter (fun p => !(p.1 == c1))
    apply List.mem_filter.mpr
    constructor
    · rw [h2]
      show (c2, b) ∈ roomJoin c2 b st1.rooms
      exact mem_roomJoin_self _ _ _
    · simp [Ne.symm hc]

/-- Witness for C9: user u1 joins fresh board b1 from k1 then from k2; the
roster holds the single k2-backed entry, and k1 disconnecting evicts b1
while k2 is still in the room. -/
theorem roster_keyed_by_userId_witness :
    ((mapGet "b1" ((serverStep 2 ((serverStep 1 ⟨[], [], [], ⟨[], [], [], []⟩⟩
          (.boardJoin "k1" ⟨"b1", "alice", "u1", none⟩)).1)
          (.boardJoin "k2" ⟨"b1", "alice2", "u1", none⟩)).1).boards).map BoardData.connectedUsers
        = some [("u1", ⟨"u1", "alice2", "k2", 2⟩)])
    ∧ mapGet "b1" ((serverStep 3 ((serverStep 2 ((serverStep 1 ⟨[], [], [], ⟨[], [], [], []⟩⟩
          (.boardJoin "k1" ⟨"b1", "alice", "u1", none⟩)).1)
          (.boardJoin "k2" ⟨"b1", "alice2", "u1", none⟩)).1)
          (.disconnect "k1")).1).boards = none
    ∧ ("k2", "b1") ∈ ((serverStep 3 ((serverStep 2 ((serverStep 1 ⟨[], [], [], ⟨[], [], [], []⟩⟩
          (.boardJoin "k1" ⟨"b1", "alice", "u1", none⟩)).1)
          (.boardJoin "k2" ⟨"b1", "alice2", "u1", none⟩)).1)
          (.disconnect "k1")).1).rooms :=
  roster_keyed_by_userId ⟨[], [], [], ⟨[], [], [], []⟩⟩
    "b1" "u1" "k1" "k2" "alice" "alice2" 1 2 3 _ _ _
    rfl rfl (by decide) rfl rfl rfl

end SortingTool
